import Mathlib

/-!
Shallow embedding of the EcoNFC sensor node core (src/app.js: the embedded
firmware section and the dashboard utility section, plus src/js/app.js).
Float arithmetic is idealised as exact arithmetic: values that stay rational
in the source are modelled in ℚ, the power-law concentration curve needs ℝ
with Real.rpow. Serial logging and hardware access are side channels with no
effect on the computed values and are omitted.
-/

/-- SENSOR CONSTANTS block of src/app.js (RL_VALUE). -/
def RL_VALUE : ℚ := 10.0

/-- Clean-air proportionality factor (RO_CLEAN_AIR_FACTOR). -/
def RO_CLEAN_AIR_FACTOR : ℚ := 9.83

/-- Number of calibration samples (CALIBRATION_SAMPLES). -/
def CALIBRATION_SAMPLES : ℕ := 50

/-- MQ135 power-law coefficient a. -/
def MQ135_A : ℚ := 116.6020682

/-- MQ135 power-law exponent b. -/
def MQ135_B : ℚ := -2.769034857

/-- MQ7 power-law coefficient a. -/
def MQ7_A : ℚ := 99.0418

/-- MQ7 power-law exponent b. -/
def MQ7_B : ℚ := -1.518

/-- MQ9 power-law coefficient a. -/
def MQ9_A : ℚ := 1000.5

/-- MQ9 power-law exponent b. -/
def MQ9_B : ℚ := -2.186

/-- Minimum PPM threshold (MIN_PPM_THRESHOLD). -/
def MIN_PPM_THRESHOLD : ℚ := 0.1

/-- Calibration validity marker byte (CALIB_MAGIC 0xAB). -/
def CALIB_MAGIC : ℕ := 0xAB

/-- hitungRs (src/app.js lines 1810-1819): convert a raw ADC code to the
sensor resistance Rs via the voltage divider; ADC 0 yields the sentinel
999999, a non-positive computed Rs is clamped to 0.1. -/
def hitungRs (adcValue : ℤ) : ℚ :=
  if adcValue = 0 then 999999.0
  else
    let voltage : ℚ := ((adcValue : ℚ) / 4095.0) * 3.3
    let Rs : ℚ := ((3.3 * RL_VALUE) / voltage) - RL_VALUE
    if Rs ≤ 0 then 0.1 else Rs

/-- hitungKonsentrasi (src/app.js lines 1821-1870): power-law ppm estimate
with the Invalid sentinel -1 for Ro ≤ 0 or ratio ≤ 0, then floor and cap
clamps. The sensorName argument of the source is used only for logging and
is omitted. -/
noncomputable def hitungKonsentrasi (Rs Ro a b : ℝ) : ℝ :=
  if Ro ≤ 0 then -1
  else
    let ratio : ℝ := Rs / Ro
    if ratio ≤ 0 then -1
    else
      let ppm : ℝ := a * Real.rpow ratio b
      let ppm1 : ℝ := if ppm < (MIN_PPM_THRESHOLD : ℝ) then (MIN_PPM_THRESHOLD : ℝ) else ppm
      if ppm1 > 10000 then 10000 else ppm1

/-- hitungAQI (src/app.js lines 1872-1880): per-channel hazard multipliers,
convex 0.4/0.3/0.3 combination, capped at 500. -/
noncomputable def hitungAQI (ppm_MQ135 ppm_MQ7 ppm_MQ9 : ℝ) : ℝ :=
  let aqi_MQ135 : ℝ := ppm_MQ135 * 1.0
  let aqi_MQ7 : ℝ := ppm_MQ7 * 2.0
  let aqi_MQ9 : ℝ := ppm_MQ9 * 1.5
  let aqi : ℝ := (aqi_MQ135 * 0.4) + (aqi_MQ7 * 0.3) + (aqi_MQ9 * 0.3)
  if aqi > 500 then 500 else aqi

/-- getStatusUdara (src/app.js lines 1882-1888): five-tier label mapping of
the AQI score. -/
noncomputable def getStatusUdara (aqi : ℝ) : String :=
  if aqi < 20 then "Baik"
  else if aqi < 50 then "Sedang"
  else if aqi < 100 then "Tidak Sehat"
  else if aqi < 200 then "Sangat Tidak Sehat"
  else "Berbahaya"

/-- C1: hitungKonsentrasi returns the Invalid sentinel -1 whenever Ro ≤ 0 or
the ratio Rs/Ro ≤ 0, and for every Rs > 0 and Ro > 0 the returned ppm lies
in the closed interval from 0.1 to 10000. -/
theorem hitungKonsentrasi_invalid_and_clamp (Rs Ro a b : ℝ) :
    ((Ro ≤ 0 ∨ Rs / Ro ≤ 0) → hitungKonsentrasi Rs Ro a b = -1) ∧
    (0 < Rs → 0 < Ro →
      0.1 ≤ hitungKonsentrasi Rs Ro a b ∧ hitungKonsentrasi Rs Ro a b ≤ 10000) := by
  constructor
  · intro hor
    by_cases h1 : Ro ≤ 0
    · simp only [hitungKonsentrasi, if_pos h1]
    · rcases hor with h | h
      · exact absurd h h1
      · simp only [hitungKonsentrasi, if_neg h1, if_pos h]
  · intro hRs hRo
    have h1 : ¬ Ro ≤ 0 := not_le.mpr hRo
    have h2 : ¬ Rs / Ro ≤ 0 := not_le.mpr (div_pos hRs hRo)
    simp only [hitungKonsentrasi, if_neg h1, if_neg h2]
    have hth : (MIN_PPM_THRESHOLD : ℝ) = 1 / 10 := by norm_num [MIN_PPM_THRESHOLD]
    constructor
    · split_ifs with hc hf hf
      · norm_num
      · linarith [hth]
      · norm_num
      · linarith [hth, not_lt.mp hc]
    · split_ifs with hc hf hf
      · norm_num
      · linarith [hth]
      · norm_num
      · linarith [hth, not_lt.mp hf]

/-- Witness for C1 at Rs = 1, Ro = 1, a = 1, b = 1. -/
theorem hitungKonsentrasi_invalid_and_clamp_witness :
    (0 : ℝ) < 1 ∧
      (0.1 ≤ hitungKonsentrasi 1 1 1 1 ∧ hitungKonsentrasi 1 1 1 1 ≤ 10000) :=
  ⟨by norm_num,
   (hitungKonsentrasi_invalid_and_clamp 1 1 1 1).2 (by norm_num) (by norm_num)⟩

/-- Helper: the 500-cap of hitungAQI is monotone in the raw weighted sum. -/
lemma cap500_mono (u v : ℝ) (h : u ≤ v) :
    (if u > 500 then (500 : ℝ) else u) ≤ (if v > 500 then (500 : ℝ) else v) := by
  split_ifs <;> linarith

/-- C2: hitungAQI is monotonically non-decreasing in each of its three ppm
inputs with the other two held fixed, and its result never exceeds 500. -/
theorem hitungAQI_monotone_capped :
    (∀ x x2 y z : ℝ, x ≤ x2 → hitungAQI x y z ≤ hitungAQI x2 y z) ∧
    (∀ x y y2 z : ℝ, y ≤ y2 → hitungAQI x y z ≤ hitungAQI x y2 z) ∧
    (∀ x y z z2 : ℝ, z ≤ z2 → hitungAQI x y z ≤ hitungAQI x y z2) ∧
    (∀ x y z : ℝ, hitungAQI x y z ≤ 500) := by
  refine ⟨?_, ?_, ?_, ?_⟩
  · intro x x2 y z h
    simp only [hitungAQI]
    exact cap500_mono _ _ (by nlinarith)
  · intro x y y2 z h
    simp only [hitungAQI]
    exact cap500_mono _ _ (by nlinarith)
  · intro x y z z2 h
    simp only [hitungAQI]
    exact cap500_mono _ _ (by nlinarith)
  · intro x y z
    simp only [hitungAQI]
    split_ifs <;> linarith

/-- Witness for C2 at concrete inputs. -/
theorem hitungAQI_monotone_capped_witness :
    (1 : ℝ) ≤ 2 ∧ hitungAQI 1 5 5 ≤ hitungAQI 2 5 5 :=
  ⟨by norm_num, hitungAQI_monotone_capped.1 1 2 5 5 (by norm_num)⟩

/-- C3: getStatusUdara partitions the non-negative scores into exactly five
tiers at 20/50/100/200, left-closed on the upper tier; in particular a score
of exactly 20 maps to Sedang, 50 to Tidak Sehat, 100 to Sangat Tidak Sehat
and 200 to Berbahaya. -/
theorem getStatusUdara_partition :
    (∀ s : ℝ, 0 ≤ s →
      ((getStatusUdara s = "Baik" ↔ s < 20) ∧
       (getStatusUdara s = "Sedang" ↔ 20 ≤ s ∧ s < 50) ∧
       (getStatusUdara s = "Tidak Sehat" ↔ 50 ≤ s ∧ s < 100) ∧
       (getStatusUdara s = "Sangat Tidak Sehat" ↔ 100 ≤ s ∧ s < 200) ∧
       (getStatusUdara s = "Berbahaya" ↔ 200 ≤ s))) ∧
    getStatusUdara 20 = "Sedang" ∧
    getStatusUdara 50 = "Tidak Sehat" ∧
    getStatusUdara 100 = "Sangat Tidak Sehat" ∧
    getStatusUdara 200 = "Berbahaya" := by
  refine ⟨fun s hs => ?_, ?_, ?_, ?_, ?_⟩
  · unfold getStatusUdara
    split_ifs with h1 h2 h3 h4 <;>
      refine ⟨?_, ?_, ?_, ?_, ?_⟩ <;> simp_all <;> intros <;> linarith
  · norm_num [getStatusUdara]
  · norm_num [getStatusUdara]
  · norm_num [getStatusUdara]
  · norm_num [getStatusUdara]

/-- Witness for C3 at score 30. -/
theorem getStatusUdara_partition_witness :
    (0 : ℝ) ≤ 30 ∧ getStatusUdara 30 = "Sedang" :=
  ⟨by norm_num,
   ((getStatusUdara_partition.1 30 (by norm_num)).2.1).mpr (by norm_num)⟩

/-- C4: hitungRs returns exactly 999999 at ADC 0, and for every ADC code in
1..4095 it returns a value strictly greater than 0; a non-positive computed
resistance is clamped up to 0.1. -/
theorem hitungRs_sentinel_and_positive :
    hitungRs 0 = 999999 ∧
    (∀ adcValue : ℤ, 1 ≤ adcValue → adcValue ≤ 4095 → 0 < hitungRs adcValue) ∧
    (∀ adcValue : ℤ, 1 ≤ adcValue → adcValue ≤ 4095 →
      ((3.3 * RL_VALUE) / (((adcValue : ℚ) / 4095.0) * 3.3) - RL_VALUE ≤ 0 →
        hitungRs adcValue = 0.1)) := by
  refine ⟨by norm_num [hitungRs], ?_, ?_⟩
  · intro adcValue h1 h2
    have hne : ¬ adcValue = 0 := by omega
    simp only [hitungRs, if_neg hne]
    split_ifs with hRs
    · norm_num
    · exact not_le.mp hRs
  · intro adcValue h1 h2 hle
    have hne : ¬ adcValue = 0 := by omega
    simp only [hitungRs, if_neg hne, if_pos hle]

/-- Witness for C4 at ADC 2000. -/
theorem hitungRs_sentinel_and_positive_witness :
    (1 : ℤ) ≤ 2000 ∧ (2000 : ℤ) ≤ 4095 ∧ 0 < hitungRs 2000 :=
  ⟨by norm_num, by norm_num,
   hitungRs_sentinel_and_positive.2.1 2000 (by norm_num) (by norm_num)⟩

/-- Result record of the dashboard AQI status helpers: a display text and a
CSS class (source field name: class). -/
structure AqiStatus where
  text : String
  cls : String

/-- utils.getAqiStatus of the dashboard section embedded in src/app.js
(lines 80-86). -/
noncomputable def getAqiStatus (aqi : ℝ) : AqiStatus :=
  if aqi < 20 then ⟨"Baik", "aqi-good"⟩
  else if aqi < 50 then ⟨"Sedang", "aqi-moderate"⟩
  else if aqi < 100 then ⟨"Tidak Sehat", "aqi-unhealthy"⟩
  else if aqi < 200 then ⟨"Sangat Tidak Sehat", "aqi-very-unhealthy"⟩
  else ⟨"Berbahaya", "aqi-hazardous"⟩

/-- utils.getAqiStatus of src/js/app.js (lines 66-72). -/
noncomputable def getAqiStatusJs (aqi : ℝ) : AqiStatus :=
  if aqi < 20 then ⟨"Baik", "aqi-good"⟩
  else if aqi < 50 then ⟨"Sedang", "aqi-moderate"⟩
  else if aqi < 100 then ⟨"Tidak Sehat", "aqi-unhealthy"⟩
  else if aqi < 200 then ⟨"Sangat Tidak Sehat", "aqi-very-unhealthy"⟩
  else ⟨"Berbahaya", "aqi-hazardous"⟩

/-- C9: for every score the firmware label function getStatusUdara and both
copies of the dashboard label function utils.getAqiStatus assign the same
tier text, so thresholds, boundary direction and the five labels coincide. -/
theorem getAqiStatus_agrees_getStatusUdara :
    ∀ aqi : ℝ, (getAqiStatus aqi).text = getStatusUdara aqi ∧
      (getAqiStatusJs aqi).text = getStatusUdara aqi ∧
      getAqiStatusJs aqi = getAqiStatus aqi := by
  intro aqi
  unfold getAqiStatus getAqiStatusJs getStatusUdara
  refine ⟨?_, ?_, ?_⟩ <;> split_ifs <;> rfl

/-- The three per-channel baseline resistances (globals Ro_MQ135, Ro_MQ7,
Ro_MQ9 of src/app.js lines 1669-1671; boot default 10.0 each). -/
structure Baselines where
  Ro_MQ135 : ℚ
  Ro_MQ7 : ℚ
  Ro_MQ9 : ℚ

/-- The calibration cells of the EEPROM: the marker byte at ADDR_CALIB_FLAG
and the three stored floats at ADDR_RO_MQ135 / ADDR_RO_MQ7 / ADDR_RO_MQ9. -/
structure EEPROMState where
  calibFlag : ℕ
  ro_MQ135 : ℚ
  ro_MQ7 : ℚ
  ro_MQ9 : ℚ

/-- bacaEEPROM (src/app.js lines 1978-1995): when the marker byte equals
CALIB_MAGIC the three stored values are loaded into the baselines, otherwise
the current (default) baselines are kept. -/
def bacaEEPROM (e : EEPROMState) (cur : Baselines) : Baselines :=
  if e.calibFlag = CALIB_MAGIC then
    { Ro_MQ135 := e.ro_MQ135, Ro_MQ7 := e.ro_MQ7, Ro_MQ9 := e.ro_MQ9 }
  else cur

/-- tulisEEPROM (src/app.js lines 1997-2005): store the three baselines and
then the marker byte. -/
def tulisEEPROM (b : Baselines) : EEPROMState :=
  { calibFlag := CALIB_MAGIC, ro_MQ135 := b.Ro_MQ135, ro_MQ7 := b.Ro_MQ7, ro_MQ9 := b.Ro_MQ9 }

/-- Sampling loop of kalibrasiSensor (src/app.js lines 1934-1961): one ADC
triple per iteration, accumulating the three resistance sums. -/
def kalibrasiLoop : List (ℤ × ℤ × ℤ) → ℚ × ℚ × ℚ → ℚ × ℚ × ℚ
  | [], sums => sums
  | adc :: rest, sums =>
      kalibrasiLoop rest
        (sums.1 + hitungRs adc.1, sums.2.1 + hitungRs adc.2.1, sums.2.2 + hitungRs adc.2.2)

/-- kalibrasiSensor (src/app.js lines 1922-1976): accumulate the sampled
resistances, divide each sum by CALIBRATION_SAMPLES and by the clean-air
factor, and persist via tulisEEPROM. The sampled ADC triples are passed in
explicitly in place of the analogRead calls; delays and serial progress
printing have no effect on the computed values. -/
def kalibrasiSensor (samples : List (ℤ × ℤ × ℤ)) : Baselines × EEPROMState :=
  let sums := kalibrasiLoop samples (0, 0, 0)
  let b : Baselines :=
    { Ro_MQ135 := (sums.1 / (CALIBRATION_SAMPLES : ℚ)) / RO_CLEAN_AIR_FACTOR
      Ro_MQ7 := (sums.2.1 / (CALIBRATION_SAMPLES : ℚ)) / RO_CLEAN_AIR_FACTOR
      Ro_MQ9 := (sums.2.2 / (CALIBRATION_SAMPLES : ℚ)) / RO_CLEAN_AIR_FACTOR }
  (b, tulisEEPROM b)

/-- Helper: the calibration loop computes the three sums of the per-channel
resistances. -/
lemma kalibrasiLoop_eq (l : List (ℤ × ℤ × ℤ)) (s : ℚ × ℚ × ℚ) :
    kalibrasiLoop l s =
      (s.1 + (l.map (fun adc => hitungRs adc.1)).sum,
       s.2.1 + (l.map (fun adc => hitungRs adc.2.1)).sum,
       s.2.2 + (l.map (fun adc => hitungRs adc.2.2)).sum) := by
  induction l generalizing s with
  | nil => simp [kalibrasiLoop]
  | cons a t ih =>
      simp only [kalibrasiLoop, ih, List.map_cons, List.sum_cons]
      refine Prod.ext ?_ (Prod.ext ?_ ?_) <;> simp <;> ring

/-- C5 counterexample: a persisted store whose marker byte is valid but which
holds the baseline value 0 is loaded verbatim by bacaEEPROM, so the loaded
Ro_MQ135 is 0 - not the default 10.0 and not strictly positive. -/
theorem bacaEEPROM_zero_baseline_counterexample :
    (bacaEEPROM ⟨CALIB_MAGIC, 0, 10, 10⟩ ⟨10, 10, 10⟩).Ro_MQ135 = 0 ∧
    ¬ 0 < (bacaEEPROM ⟨CALIB_MAGIC, 0, 10, 10⟩ ⟨10, 10, 10⟩).Ro_MQ135 ∧
    (bacaEEPROM ⟨CALIB_MAGIC, 0, 10, 10⟩ ⟨10, 10, 10⟩).Ro_MQ135 ≠ 10 := by
  refine ⟨rfl, ?_, ?_⟩ <;> simp [bacaEEPROM]

/-- C5 amended: when the marker byte mismatches (store absent or corrupted
marker), bacaEEPROM keeps the current default baselines unchanged; when the
marker matches, the three stored values are loaded verbatim with no
positivity check, so a stored 0 propagates into the baselines. -/
theorem bacaEEPROM_marker_semantics :
    (∀ (e : EEPROMState) (cur : Baselines),
      e.calibFlag ≠ CALIB_MAGIC → bacaEEPROM e cur = cur) ∧
    (∀ (e : EEPROMState) (cur : Baselines),
      e.calibFlag = CALIB_MAGIC →
        bacaEEPROM e cur = ⟨e.ro_MQ135, e.ro_MQ7, e.ro_MQ9⟩) := by
  constructor
  · intro e cur h
    simp [bacaEEPROM, h]
  · intro e cur h
    simp [bacaEEPROM, h]

/-- Witness for the amended C5 with a mismatching marker byte 0. -/
theorem bacaEEPROM_marker_semantics_witness :
    (0 : ℕ) ≠ CALIB_MAGIC ∧
      bacaEEPROM ⟨0, 1, 2, 3⟩ ⟨10, 10, 10⟩ = ⟨10, 10, 10⟩ :=
  ⟨by decide, bacaEEPROM_marker_semantics.1 ⟨0, 1, 2, 3⟩ ⟨10, 10, 10⟩ (by decide)⟩

/-- C8: for a calibration run over exactly CALIBRATION_SAMPLES = 50 sampled
ADC triples, each new baseline equals the arithmetic mean of the 50 sampled
resistances of its channel divided by the clean-air factor 9.83, and all
three baselines are persisted together with the validity marker. -/
theorem kalibrasiSensor_mean_and_persist (samples : List (ℤ × ℤ × ℤ))
    (h : samples.length = CALIBRATION_SAMPLES) :
    (kalibrasiSensor samples).1.Ro_MQ135 =
      ((samples.map (fun adc => hitungRs adc.1)).sum / (samples.length : ℚ)) /
        RO_CLEAN_AIR_FACTOR ∧
    (kalibrasiSensor samples).1.Ro_MQ7 =
      ((samples.map (fun adc => hitungRs adc.2.1)).sum / (samples.length : ℚ)) /
        RO_CLEAN_AIR_FACTOR ∧
    (kalibrasiSensor samples).1.Ro_MQ9 =
      ((samples.map (fun adc => hitungRs adc.2.2)).sum / (samples.length : ℚ)) /
        RO_CLEAN_AIR_FACTOR ∧
    (kalibrasiSensor samples).2.ro_MQ135 = (kalibrasiSensor samples).1.Ro_MQ135 ∧
    (kalibrasiSensor samples).2.ro_MQ7 = (kalibrasiSensor samples).1.Ro_MQ7 ∧
    (kalibrasiSensor samples).2.ro_MQ9 = (kalibrasiSensor samples).1.Ro_MQ9 ∧
    (kalibrasiSensor samples).2.calibFlag = CALIB_MAGIC := by
  refine ⟨?_, ?_, ?_, rfl, rfl, rfl, rfl⟩ <;>
    simp [kalibrasiSensor, kalibrasiLoop_eq, h]

/-- Witness for C8 on 50 identical samples. -/
theorem kalibrasiSensor_mean_and_persist_witness :
    (List.replicate 50 ((2000 : ℤ), (2000 : ℤ), (2000 : ℤ))).length =
        CALIBRATION_SAMPLES ∧
      (kalibrasiSensor
          (List.replicate 50 ((2000 : ℤ), (2000 : ℤ), (2000 : ℤ)))).2.calibFlag =
        CALIB_MAGIC :=
  ⟨by simp [CALIBRATION_SAMPLES],
   (kalibrasiSensor_mean_and_persist _
      (by simp [CALIBRATION_SAMPLES])).2.2.2.2.2.2⟩

/-- validasiADC (src/app.js lines 1890-1901): an ADC value above 4095 fails
validation; a value below 5 is only logged and still passes. -/
def validasiADC (adcValue : ℤ) : Bool :=
  if adcValue > 4095 then false else true

/-- bacaDHT (src/app.js lines 1905-1918): the raw DHT readings are passed as
Option values, none standing for a NaN read; a read fails when either value
is NaN or outside the plausible ranges. -/
def bacaDHT (t h : Option ℚ) : Option (ℚ × ℚ) :=
  match t, h with
  | some temp, some humidity =>
      if temp < -40 ∨ temp > 80 ∨ humidity < 0 ∨ humidity > 100 then none
      else some (temp, humidity)
  | _, _ => none

/-- Mutable firmware state read and written by readSensorData: the three
baselines and the DHT fallback state (src/app.js lines 1669-1675). -/
structure SensorState where
  Ro_MQ135 : ℚ
  Ro_MQ7 : ℚ
  Ro_MQ9 : ℚ
  lastValidTemp : ℚ
  lastValidHumidity : ℚ
  dhtErrorCount : ℕ

/-- One complete cycle output of readSensorData. -/
structure Reading where
  temp : ℚ
  humidity : ℚ
  aqi : ℝ
  ppm_MQ135 : ℝ
  ppm_MQ7 : ℝ
  ppm_MQ9 : ℝ
  adc_MQ135 : ℤ
  adc_MQ7 : ℤ
  adc_MQ9 : ℤ

/-- readSensorData (src/app.js lines 2032-2099). The raw ADC triples and the
raw DHT values are explicit inputs in place of the analogRead / dht reads.
The source signals an aborted cycle by setting aqi = -1 and returning with
the remaining outputs unassigned; sendSensorData (line 2421) then skips the
emission entirely, which is modelled as the none result. An Invalid (-1)
concentration is substituted with MIN_PPM_THRESHOLD before the AQI step, as
in lines 2075-2080. -/
noncomputable def readSensorData (adc_135 adc_7 adc_9 : ℤ)
    (dhtTemp dhtHumidity : Option ℚ) (st : SensorState) :
    Option Reading × SensorState :=
  if !(validasiADC adc_135) || !(validasiADC adc_7) || !(validasiADC adc_9) then
    (none, st)
  else
    let Rs_MQ135 := hitungRs adc_135
    let Rs_MQ7 := hitungRs adc_7
    let Rs_MQ9 := hitungRs adc_9
    let ppm_135_raw :=
      hitungKonsentrasi (Rs_MQ135 : ℝ) (st.Ro_MQ135 : ℝ) (MQ135_A : ℝ) (MQ135_B : ℝ)
    let ppm_7_raw :=
      hitungKonsentrasi (Rs_MQ7 : ℝ) (st.Ro_MQ7 : ℝ) (MQ7_A : ℝ) (MQ7_B : ℝ)
    let ppm_9_raw :=
      hitungKonsentrasi (Rs_MQ9 : ℝ) (st.Ro_MQ9 : ℝ) (MQ9_A : ℝ) (MQ9_B : ℝ)
    let ppm_135 := if ppm_135_raw < 0 then (MIN_PPM_THRESHOLD : ℝ) else ppm_135_raw
    let ppm_7 := if ppm_7_raw < 0 then (MIN_PPM_THRESHOLD : ℝ) else ppm_7_raw
    let ppm_9 := if ppm_9_raw < 0 then (MIN_PPM_THRESHOLD : ℝ) else ppm_9_raw
    let aqi := hitungAQI ppm_135 ppm_7 ppm_9
    match bacaDHT dhtTemp dhtHumidity with
    | some th =>
        (some { temp := th.1, humidity := th.2, aqi := aqi,
                ppm_MQ135 := ppm_135, ppm_MQ7 := ppm_7, ppm_MQ9 := ppm_9,
                adc_MQ135 := adc_135, adc_MQ7 := adc_7, adc_MQ9 := adc_9 },
         { st with lastValidTemp := th.1, lastValidHumidity := th.2, dhtErrorCount := 0 })
    | none =>
        (some { temp := st.lastValidTemp, humidity := st.lastValidHumidity, aqi := aqi,
                ppm_MQ135 := ppm_135, ppm_MQ7 := ppm_7, ppm_MQ9 := ppm_9,
                adc_MQ135 := adc_135, adc_MQ7 := adc_7, adc_MQ9 := adc_9 },
         { st with dhtErrorCount := st.dhtErrorCount + 1 })

/-- Helper: validasiADC passes exactly the values up to 4095. -/
lemma validasiADC_eq_true (a : ℤ) : validasiADC a = true ↔ a ≤ 4095 := by
  by_cases h : a > 4095
  · simp [validasiADC, h]
  · simp [validasiADC, h]
    omega

/-- Helper: with three in-range ADC values the abort condition is false. -/
lemma readSensorData_cond_false {a1 a2 a3 : ℤ}
    (h1 : a1 ≤ 4095) (h2 : a2 ≤ 4095) (h3 : a3 ≤ 4095) :
    (!(validasiADC a1) || !(validasiADC a2) || !(validasiADC a3)) = false := by
  rw [(validasiADC_eq_true a1).mpr h1, (validasiADC_eq_true a2).mpr h2,
    (validasiADC_eq_true a3).mpr h3]
  rfl

/-- C6: if any of the three raw ADC values exceeds 4095 the whole cycle is
aborted - no reading is produced and the state is untouched, so nothing
partial is emitted - while any in-range ADC values (including near-zero
ones, which are merely logged) always produce a reading. -/
theorem readSensorData_abort_and_proceed :
    ∀ (a1 a2 a3 : ℤ) (t h : Option ℚ) (st : SensorState),
      ((a1 > 4095 ∨ a2 > 4095 ∨ a3 > 4095) →
        readSensorData a1 a2 a3 t h st = (none, st)) ∧
      (a1 ≤ 4095 → a2 ≤ 4095 → a3 ≤ 4095 →
        ∃ rd : Reading, (readSensorData a1 a2 a3 t h st).1 = some rd) := by
  intro a1 a2 a3 t h st
  constructor
  · intro hor
    have hcond : (!(validasiADC a1) || !(validasiADC a2) || !(validasiADC a3)) = true := by
      rcases hor with h1 | h1 | h1 <;> simp [validasiADC, h1]
    simp [readSensorData, hcond]
  · intro h1 h2 h3
    have hcond := readSensorData_cond_false h1 h2 h3
    cases hdht : bacaDHT t h with
    | none => exact ⟨_, by simp [readSensorData, hcond, hdht]; rfl⟩
    | some th => exact ⟨_, by simp [readSensorData, hcond, hdht]; rfl⟩

/-- Witness for C6: ADC 4096 aborts the cycle with the state unchanged, and
the near-zero ADC value 3 does not abort. -/
theorem readSensorData_abort_and_proceed_witness :
    ((4096 : ℤ) > 4095 ∨ (0 : ℤ) > 4095 ∨ (0 : ℤ) > 4095) ∧
      readSensorData 4096 0 0 none none ⟨10, 10, 10, 25, 50, 0⟩ =
        (none, ⟨10, 10, 10, 25, 50, 0⟩) ∧
      ((3 : ℤ) ≤ 4095 ∧
        ∃ rd : Reading,
          (readSensorData 3 3 3 none none ⟨10, 10, 10, 25, 50, 0⟩).1 = some rd) :=
  ⟨Or.inl (by decide),
   (readSensorData_abort_and_proceed 4096 0 0 none none _).1 (Or.inl (by decide)),
   by decide,
   (readSensorData_abort_and_proceed 3 3 3 none none _).2 (by decide) (by decide)
     (by decide)⟩

/-- C7: when the DHT read fails (NaN or implausible values), the produced
reading carries the previous last-known-good temperature and humidity
unchanged, the consecutive-failure counter grows by exactly 1, no other
state field changes, and the ppm values and AQI of the reading do not depend
on the DHT outcome at all. -/
theorem readSensorData_dht_failure_frame :
    ∀ (a1 a2 a3 : ℤ) (t h : Option ℚ) (st : SensorState),
      a1 ≤ 4095 → a2 ≤ 4095 → a3 ≤ 4095 → bacaDHT t h = none →
      (readSensorData a1 a2 a3 t h st).1.map Reading.temp = some st.lastValidTemp ∧
      (readSensorData a1 a2 a3 t h st).1.map Reading.humidity =
        some st.lastValidHumidity ∧
      (readSensorData a1 a2 a3 t h st).2.dhtErrorCount = st.dhtErrorCount + 1 ∧
      (readSensorData a1 a2 a3 t h st).2.lastValidTemp = st.lastValidTemp ∧
      (readSensorData a1 a2 a3 t h st).2.lastValidHumidity = st.lastValidHumidity ∧
      (readSensorData a1 a2 a3 t h st).2.Ro_MQ135 = st.Ro_MQ135 ∧
      (readSensorData a1 a2 a3 t h st).2.Ro_MQ7 = st.Ro_MQ7 ∧
      (readSensorData a1 a2 a3 t h st).2.Ro_MQ9 = st.Ro_MQ9 ∧
      (∀ t2 h2 : Option ℚ,
        (readSensorData a1 a2 a3 t2 h2 st).1.map Reading.aqi =
          (readSensorData a1 a2 a3 t h st).1.map Reading.aqi ∧
        (readSensorData a1 a2 a3 t2 h2 st).1.map Reading.ppm_MQ135 =
          (readSensorData a1 a2 a3 t h st).1.map Reading.ppm_MQ135 ∧
        (readSensorData a1 a2 a3 t2 h2 st).1.map Reading.ppm_MQ7 =
          (readSensorData a1 a2 a3 t h st).1.map Reading.ppm_MQ7 ∧
        (readSensorData a1 a2 a3 t2 h2 st).1.map Reading.ppm_MQ9 =
          (readSensorData a1 a2 a3 t h st).1.map Reading.ppm_MQ9) := by
  intro a1 a2 a3 t h st h1 h2 h3 hdht
  have hcond := readSensorData_cond_false h1 h2 h3
  refine ⟨?_, ?_, ?_, ?_, ?_, ?_, ?_, ?_, ?_⟩
  · simp [readSensorData, hcond, hdht]
  · simp [readSensorData, hcond, hdht]
  · simp [readSensorData, hcond, hdht]
  · simp [readSensorData, hcond, hdht]
  · simp [readSensorData, hcond, hdht]
  · simp [readSensorData, hcond, hdht]
  · simp [readSensorData, hcond, hdht]
  · simp [readSensorData, hcond, hdht]
  · intro t2 h2a
    cases hdht2 : bacaDHT t2 h2a with
    | none => refine ⟨?_, ?_, ?_, ?_⟩ <;> simp [readSensorData, hcond, hdht, hdht2]
    | some th => refine ⟨?_, ?_, ?_, ?_⟩ <;> simp [readSensorData, hcond, hdht, hdht2]

/-- Witness for C7: in-range ADC values with a NaN DHT read increment the
failure counter from 0 to 1. -/
theorem readSensorData_dht_failure_frame_witness :
    (2000 : ℤ) ≤ 4095 ∧ bacaDHT none none = none ∧
      (readSensorData 2000 2000 2000 none none ⟨10, 10, 10, 25, 50, 0⟩).2.dhtErrorCount =
        0 + 1 :=
  ⟨by decide, rfl,
   (readSensorData_dht_failure_frame 2000 2000 2000 none none ⟨10, 10, 10, 25, 50, 0⟩
      (by decide) (by decide) (by decide) rfl).2.2.1⟩

/-- storage.saveSensorData (src/app.js lines 174-191): append the new record
to the persisted history and keep only the last 1000 records; the resulting
list is stored both in localStorage and in state.sensorDataHistory. -/
def saveSensorData {α : Type} (stored : List α) (data : α) : List α :=
  let history := stored ++ [data]
  if history.length > 1000 then history.drop (history.length - 1000) else history

/-- C10: after every saveSensorData call the history holds at most 1000
records, it is the suffix of the appended history obtained by dropping the
oldest records first, and the newly appended record is always retained as
the most recent entry. -/
theorem saveSensorData_bounded {α : Type} :
    ∀ (stored : List α) (data : α),
      (saveSensorData stored data).length ≤ 1000 ∧
      saveSensorData stored data =
        (stored ++ [data]).drop ((stored ++ [data]).length - 1000) ∧
      (saveSensorData stored data).getLast? = some data := by
  intro stored data
  by_cases hlen : (stored ++ [data]).length > 1000
  · have hk : (stored ++ [data]).length - 1000 ≤ stored.length := by
      simp only [List.length_append, List.length_singleton] at hlen ⊢
      omega
    refine ⟨?_, ?_, ?_⟩
    · simp only [saveSensorData, if_pos hlen, List.length_drop]
      omega
    · simp only [saveSensorData, if_pos hlen]
    · simp only [saveSensorData, if_pos hlen, List.drop_append_of_le_length hk]
      exact List.getLast?_concat _
  · refine ⟨?_, ?_, ?_⟩
    · simp only [saveSensorData, if_neg hlen]
      omega
    · have hz : (stored ++ [data]).length - 1000 = 0 := by omega
      simp only [saveSensorData, if_neg hlen, hz, List.drop_zero]
    · simp only [saveSensorData, if_neg hlen]
      exact List.getLast?_concat _
